import Mathlib

/-!
Verification development for the nRF52 NTC sampling firmware.

Two variants are embedded from the repository sources:
  * the binary-notification variant
    (src/nRF52-ADC-examples-master/nrfx_saadc_continuous_sampling/main.c):
    globals `ntc_sampling_enabled`, `number_counter`, the SAADC event handler
    (lines 67-116) and the main loop (lines 383-454);
  * the NUS text variant (src/pca10056/blank/ses/ble.h): its SAADC event
    handler (lines 220-255) and main loop (lines 297-342).

Machine integers are modelled as Nat.  The three loop counters of the binary
variant are uint32_t in the source, but they are reset to 0 when they reach
their divisor (2 and 1) or pinned at 100000, far below 2^32, so 32-bit
wraparound is unreachable for them and they are modelled as plain Nat.
`number_counter` is incremented without bound in the source, so its uint32_t
wraparound is kept explicit as `% 2 ^ 32`.
-/

/-! ### Configuration constants (main.c lines 410-412, ble.h lines 34 and 327) -/

def reset_max_count : Nat := 100000

def led_interval : Nat := 2

def saadc_interval : Nat := 1

/-- ble.h line 327: `SAADC_SAMPLE_INTERVAL_MS / 100` with interval 1000 ms. -/
def nus_sample_divisor : Nat := 10

/-! ### Nordic SDK error codes (values from the SDK's nrf_error.h, used by both handlers) -/

def NRF_SUCCESS : Nat := 0

def NRF_ERROR_NOT_FOUND : Nat := 5

def NRF_ERROR_INVALID_STATE : Nat := 8

def NRF_ERROR_BUSY : Nat := 17

def NRF_ERROR_RESOURCES : Nat := 19

/-! ### Conversion buffers and the driver's armed-buffer queue -/

/-- The two static conversion buffers `saadc_buffer_1` / `saadc_buffer_2`
(main.c lines 42-43; `saadc_buf1` / `saadc_buf2` in ble.h lines 54-55). -/
inductive Buf
  | b1
  | b2
deriving DecidableEq, Repr

/-- main.c line 109: the ternary `p_buffer == saadc_buffer_1 ? saadc_buffer_2 : saadc_buffer_1`. -/
def Buf.other : Buf → Buf
  | .b1 => .b2
  | .b2 => .b1

/-- Modelled from the spec: the vendor nrfx SAADC driver is not part of this
repository; per spec section 3 (ConversionBuffer) and section 4.1 (`arm`), the
driver holds at most two armed buffers at a time, and `nrfx_saadc_buffer_set`
arms one more buffer, failing when both slots are already taken. -/
def buffer_set (q : List Buf) (b : Buf) : Except Unit (List Buf) :=
  if q.length < 2 then Except.ok (q ++ [b]) else Except.error ()

instance {ε α : Type} [DecidableEq ε] [DecidableEq α] : DecidableEq (Except ε α) :=
  fun x y =>
    match x, y with
    | .ok a, .ok b =>
        if h : a = b then isTrue (h ▸ rfl)
        else isFalse (fun hc => h (Except.ok.inj hc))
    | .ok _, .error _ => isFalse (fun hc => Except.noConfusion hc)
    | .error _, .ok _ => isFalse (fun hc => Except.noConfusion hc)
    | .error a, .error b =>
        if h : a = b then isTrue (h ▸ rfl)
        else isFalse (fun hc => h (Except.error.inj hc))

/-! ### Wire payload (main.c lines 79-84) -/

/-- main.c line 81/83: `(uint8_t)(value & 0xFF)` on an int16_t promoted to int;
the cast to uint8_t of the low bits is the value's two's-complement
representation modulo 256, i.e. `Int.emod` by 256. -/
def byte_lo (v : Int) : Nat := (v % 256).toNat

/-- main.c line 82/84: `(uint8_t)(value >> 8)`; `>>` on the promoted int16_t is an
arithmetic shift, i.e. floor division by 256, and the uint8_t cast takes the
result modulo 256. -/
def byte_hi (v : Int) : Nat := ((Int.fdiv v 256) % 256).toNat

/-- main.c lines 80-84: the 4-byte notification payload, channel 1 then channel 2,
low byte first. -/
def payload4 (ntc1 ntc2 : Int) : List Nat :=
  [byte_lo ntc1, byte_hi ntc1, byte_lo ntc2, byte_hi ntc2]

/-- Little-endian signed 16-bit decoding, written from the claim's words
("bytes 0-1 are the little-endian encoding of the signed 16-bit value"),
used to compare the source encoder against the spec. -/
def decode_le_s16 (lo hi : Nat) : Int :=
  if lo + 256 * hi < 32768 then ((lo + 256 * hi : Nat) : Int)
  else ((lo + 256 * hi : Nat) : Int) - 65536

/-! ### Binary-notification variant: state, event handler, main loop -/

/-- The mutable state of the binary-notification variant: the file-scope globals
of main.c (lines 42-50) together with the counters local to `main`
(lines 406-408) and the levels of the three output pins. -/
structure Sys where
  ntc_sampling_enabled : Bool
  number_counter : Nat
  m_conn_handle_valid : Bool
  reset_counter : Nat
  led_counter : Nat
  saadc_counter : Nat
  led_pin : Bool
  sr_reset_pin : Bool
  ntc_en : Bool
deriving DecidableEq, Repr

/-- State after `gpio_init` (main.c lines 120-127: reset pin cleared, NTC_EN set,
LED configured as output, low) and the counter declarations in `main`
(lines 406-408), with no BLE connection yet. -/
def init_sys : Sys :=
  { ntc_sampling_enabled := true
    number_counter := 0
    m_conn_handle_valid := false
    reset_counter := 0
    led_counter := 0
    saadc_counter := 0
    led_pin := false
    sr_reset_pin := false
    ntc_en := true }

/-- Result of one run of `saadc_event_handler` (main.c lines 67-116): the updated
globals, the driver's armed-buffer queue after the handler's
`nrfx_saadc_buffer_set` call, the notification payload handed to
`sd_ble_gatts_hvx` (if any), and whether `APP_ERROR_CHECK` tripped on the
buffer_set result (line 110). -/
structure HOut where
  sys : Sys
  armq : List Buf
  notif : Option (List Nat)
  halted : Bool
deriving DecidableEq, Repr

/-- main.c lines 67-116, the `NRFX_SAADC_EVT_DONE` case.  `q` is the driver's
armed-buffer queue at the time the handler runs (i.e. after the completed
buffer has been taken off), `completed` the buffer of the DONE event, and
`ntc1` / `ntc2` the two values read from it (lines 74-75). -/
def saadc_event_handler (s : Sys) (q : List Buf) (completed : Buf)
    (ntc1 ntc2 : Int) : HOut :=
  if s.ntc_sampling_enabled = true then
    let s1 : Sys := { s with number_counter := (s.number_counter + 1) % 2 ^ 32 }
    let notif : Option (List Nat) :=
      if s1.m_conn_handle_valid = true then some (payload4 ntc1 ntc2) else none
    match buffer_set q completed.other with
    | Except.ok q2 => { sys := s1, armq := q2, notif := notif, halted := false }
    | Except.error _ => { sys := s1, armq := q, notif := notif, halted := true }
  else
    { sys := s, armq := q, notif := none, halted := false }

/-- The driver delivering a completed conversion: the oldest armed buffer is
taken off the queue, handed to `saadc_event_handler` together with its two
values. Returns `none` when no buffer is armed (pipeline starved). -/
def done_cycle (s : Sys) (q : List Buf) (ntc1 ntc2 : Int) :
    Option (Buf × List Buf × HOut) :=
  match q with
  | [] => none
  | handed :: rest => some (handed, rest, saadc_event_handler s rest handed ntc1 ntc2)

/-- One iteration of the main loop of main.c (lines 414-453): increment the three
counters, toggle the LED when its divisor is reached, trigger a conversion when
sampling is enabled, and run the one-shot latch block once `reset_counter`
reaches `reset_max_count`. -/
def tick (s : Sys) : Sys :=
  let s1 : Sys :=
    { s with reset_counter := s.reset_counter + 1
             led_counter := s.led_counter + 1
             saadc_counter := s.saadc_counter + 1 }
  let s2 : Sys :=
    if led_interval ≤ s1.led_counter then
      { s1 with led_pin := !s1.led_pin, led_counter := 0 }
    else s1
  let s3 : Sys :=
    if s2.ntc_sampling_enabled = true ∧ saadc_interval ≤ s2.saadc_counter then
      { s2 with saadc_counter := 0 }
    else s2
  if reset_max_count ≤ s3.reset_counter then
    { s3 with sr_reset_pin := true
              ntc_en := false
              ntc_sampling_enabled := false
              reset_counter := reset_max_count }
  else s3

/-- Events that can reach the shared state: a main-loop iteration, a
conversion-complete callback (which touches `number_counter` only when sampling
is enabled, main.c line 71-73), and the calibration event (a pure log,
lines 112-115). -/
inductive Ev
  | tick
  | done (b : Buf) (ntc1 ntc2 : Int)
  | calibrate
deriving DecidableEq, Repr

def applyEv (s : Sys) : Ev → Sys
  | .tick => tick s
  | .done _ _ _ =>
      if s.ntc_sampling_enabled = true then
        { s with number_counter := (s.number_counter + 1) % 2 ^ 32 }
      else s
  | .calibrate => s

def runEvs (s : Sys) (evs : List Ev) : Sys := evs.foldl applyEv s

/-- The terminal latched shape of the binary variant (main.c lines 440-446). -/
def Latched (s : Sys) : Prop :=
  s.ntc_sampling_enabled = false ∧ s.ntc_en = false ∧ s.sr_reset_pin = true ∧
    s.reset_counter = reset_max_count

/-- Pure-tick trajectory of the main loop from the post-init state. -/
def iterTick : Nat → Sys
  | 0 => init_sys
  | n + 1 => tick (iterTick n)

/-! ### Send-result classification -/

inductive SendOutcome
  | success
  | silentDrop
  | logNonFatal
  | fatal
deriving DecidableEq, Repr

/-- main.c lines 97-105: the `sd_ble_gatts_hvx` result is logged on success,
silently ignored when it is `NRF_ERROR_BUSY`, and logged as an error (the loop
continues) otherwise. -/
def hvx_outcome (err : Nat) : SendOutcome :=
  if err = NRF_SUCCESS then SendOutcome.success
  else if err = NRF_ERROR_BUSY then SendOutcome.silentDrop
  else SendOutcome.logNonFatal

/-- ble.h lines 239-248: the `ble_nus_data_send` result is passed to
`APP_ERROR_CHECK` unless it is INVALID_STATE, RESOURCES or NOT_FOUND;
`APP_ERROR_CHECK` is a no-op on NRF_SUCCESS and halts otherwise. -/
def nus_send_outcome (err : Nat) : SendOutcome :=
  if err = NRF_ERROR_INVALID_STATE ∨ err = NRF_ERROR_RESOURCES ∨
      err = NRF_ERROR_NOT_FOUND then SendOutcome.silentDrop
  else if err = NRF_SUCCESS then SendOutcome.success
  else SendOutcome.fatal

/-- Result of one run of the NUS variant's `saadc_event_handler`
(ble.h lines 220-255). -/
structure NusOut where
  armq : List Buf
  halted : Bool
deriving DecidableEq, Repr

/-- ble.h lines 220-255, the DONE case: send the text payload when connected
(`APP_ERROR_CHECK` may halt on an unexpected send result, lines 243-248), then
re-queue both buffers, DISCARDING the results of both `nrfx_saadc_buffer_set`
calls (lines 252-253). -/
def nus_saadc_event_handler (connValid : Bool) (sendErr : Nat) (q : List Buf) :
    NusOut :=
  if connValid = true ∧ nus_send_outcome sendErr = SendOutcome.fatal then
    { armq := q, halted := true }
  else
    let q1 : List Buf :=
      match buffer_set q Buf.b1 with
      | Except.ok r => r
      | Except.error _ => q
    let q2 : List Buf :=
      match buffer_set q1 Buf.b2 with
      | Except.ok r => r
      | Except.error _ => q1
    { armq := q2, halted := false }

/-! ### NUS text variant: main-loop state (ble.h lines 297-342) -/

/-- The NUS variant's loop state: the two timers local to `main` (ble.h
lines 320-321) and the three output pin levels set up in lines 311-315. -/
structure NusSys where
  sample_timer : Nat
  blink_timer : Nat
  led_pin : Bool
  sr_reset_pin : Bool
  ntc_en_pin : Bool
deriving DecidableEq, Repr

/-- ble.h lines 311-321: reset pin cleared, NTC enable set, timers zero. -/
def nus_init : NusSys :=
  { sample_timer := 0
    blink_timer := 0
    led_pin := false
    sr_reset_pin := false
    ntc_en_pin := true }

/-- One iteration of the NUS main loop (ble.h lines 324-341): trigger a
conversion every `nus_sample_divisor` ticks, toggle the LED every tick; the
Bool records whether `nrfx_saadc_mode_trigger` was called this tick. -/
def nus_tick (s : NusSys) : NusSys × Bool :=
  let st := s.sample_timer + 1
  let trig : Bool := decide (nus_sample_divisor ≤ st)
  let st2 := if nus_sample_divisor ≤ st then 0 else st
  let bt := s.blink_timer + 1
  let bt2 := if 1 ≤ bt then 0 else bt
  let led2 := if 1 ≤ bt then !s.led_pin else s.led_pin
  ({ sample_timer := st2, blink_timer := bt2, led_pin := led2
     sr_reset_pin := s.sr_reset_pin, ntc_en_pin := s.ntc_en_pin }, trig)

def nusIter : Nat → NusSys
  | 0 => nus_init
  | n + 1 => (nus_tick (nusIter n)).1

/-- Whether the NUS loop issues a conversion trigger on tick `n + 1`. -/
def nusTriggersAt (n : Nat) : Bool := (nus_tick (nusIter n)).2

/-! ### Match-Heuristic Engine -/

/-- Modelled from the spec: the Match-Heuristic Engine (spec section 4.2) exists
only in the match-heuristic variant, whose source file is not under src/; per
the spec, the first reading of the 15-element batch is the reference and the
engine counts how many of the remaining 14 equal it exactly, the reference
itself included in the total. -/
def match_count (w : List Int) : Nat :=
  match w with
  | [] => 0
  | r :: rest => 1 + rest.countP (fun x => decide (x = r))

/-- Modelled from the spec: a total match count in the inclusive range [7, 8]
triggers a positive detection for the channel (spec section 4.2). -/
def detection (w : List Int) : Bool :=
  decide (7 ≤ match_count w ∧ match_count w ≤ 8)

/-! ### Helper lemmas: projections of one main-loop iteration -/

theorem tick_reset_counter (s : Sys) :
    (tick s).reset_counter =
      if reset_max_count ≤ s.reset_counter + 1 then reset_max_count
      else s.reset_counter + 1 := by
  simp only [tick]
  split_ifs <;> rfl

theorem tick_enabled (s : Sys) :
    (tick s).ntc_sampling_enabled =
      if reset_max_count ≤ s.reset_counter + 1 then false
      else s.ntc_sampling_enabled := by
  simp only [tick]
  split_ifs <;> rfl

theorem tick_sr_reset_pin (s : Sys) :
    (tick s).sr_reset_pin =
      if reset_max_count ≤ s.reset_counter + 1 then true
      else s.sr_reset_pin := by
  simp only [tick]
  split_ifs <;> rfl

theorem tick_ntc_en (s : Sys) :
    (tick s).ntc_en =
      if reset_max_count ≤ s.reset_counter + 1 then false
      else s.ntc_en := by
  simp only [tick]
  split_ifs <;> rfl

theorem tick_led_pin (s : Sys) :
    (tick s).led_pin =
      if led_interval ≤ s.led_counter + 1 then !s.led_pin else s.led_pin := by
  simp only [tick]
  split_ifs <;> rfl

theorem tick_led_counter (s : Sys) :
    (tick s).led_counter =
      if led_interval ≤ s.led_counter + 1 then 0 else s.led_counter + 1 := by
  simp only [tick]
  split_ifs <;> rfl

theorem tick_number_counter (s : Sys) :
    (tick s).number_counter = s.number_counter := by
  simp only [tick]
  split_ifs <;> rfl

theorem tick_conn (s : Sys) :
    (tick s).m_conn_handle_valid = s.m_conn_handle_valid := by
  simp only [tick]
  split_ifs <;> rfl

/-- Closed form for the pure-tick trajectory of the binary variant's main loop. -/
theorem iterTick_fields (n : Nat) :
    (iterTick n).reset_counter = min n reset_max_count
    ∧ (iterTick n).ntc_sampling_enabled = decide (n < reset_max_count)
    ∧ (iterTick n).sr_reset_pin = decide (reset_max_count ≤ n)
    ∧ (iterTick n).ntc_en = decide (n < reset_max_count)
    ∧ (iterTick n).led_counter = n % 2
    ∧ (iterTick n).led_pin = decide (n / 2 % 2 = 1)
    ∧ (iterTick n).number_counter = 0
    ∧ (iterTick n).m_conn_handle_valid = false := by
  induction n with
  | zero => decide
  | succ n ih =>
    obtain ⟨h1, h2, h3, h4, h5, h6, h7, h8⟩ := ih
    rw [iterTick]
    refine ⟨?_, ?_, ?_, ?_, ?_, ?_, ?_, ?_⟩
    · rw [tick_reset_counter, h1]
      unfold reset_max_count
      split_ifs <;> omega
    · rw [tick_enabled, h1, h2]
      unfold reset_max_count
      split_ifs with h
      · rw [eq_comm, decide_eq_false_iff_not]
        omega
      · rw [decide_eq_decide]
        omega
    · rw [tick_sr_reset_pin, h1, h3]
      unfold reset_max_count
      split_ifs with h
      · rw [eq_comm, decide_eq_true_eq]
        omega
      · rw [decide_eq_decide]
        omega
    · rw [tick_ntc_en, h1, h4]
      unfold reset_max_count
      split_ifs with h
      · rw [eq_comm, decide_eq_false_iff_not]
        omega
      · rw [decide_eq_decide]
        omega
    · rw [tick_led_counter, h5]
      unfold led_interval
      split_ifs <;> omega
    · rw [tick_led_pin, h5, h6]
      unfold led_interval
      split_ifs with h
      · rw [← decide_not, decide_eq_decide]
        omega
      · rw [decide_eq_decide]
        omega
    · rw [tick_number_counter, h7]
    · rw [tick_conn, h8]

/-! ### Event-model helper lemmas -/

theorem runEvs_nil (s : Sys) : runEvs s [] = s := rfl

theorem runEvs_cons (s : Sys) (e : Ev) (evs : List Ev) :
    runEvs s (e :: evs) = runEvs (applyEv s e) evs := rfl

/-- The state part of the DONE handler agrees with the event model. -/
theorem saadc_event_handler_sys (s : Sys) (q : List Buf) (b : Buf) (v1 v2 : Int) :
    (saadc_event_handler s q b v1 v2).sys = applyEv s (Ev.done b v1 v2) := by
  simp only [saadc_event_handler, applyEv]
  by_cases h : s.ntc_sampling_enabled = true
  · rw [if_pos h, if_pos h]
    cases buffer_set q b.other <;> rfl
  · rw [if_neg h, if_neg h]

/-- The latched shape is preserved by every event. -/
theorem applyEv_latched (s : Sys) (e : Ev) (h : Latched s) :
    Latched (applyEv s e) ∧ (applyEv s e).number_counter = s.number_counter := by
  obtain ⟨he, hen, hsr, hrc⟩ := h
  cases e with
  | tick =>
    have hcond : reset_max_count ≤ s.reset_counter + 1 := by
      rw [hrc]
      omega
    refine ⟨⟨?_, ?_, ?_, ?_⟩, ?_⟩
    · rw [applyEv, tick_enabled, if_pos hcond]
    · rw [applyEv, tick_ntc_en, if_pos hcond]
    · rw [applyEv, tick_sr_reset_pin, if_pos hcond]
    · rw [applyEv, tick_reset_counter, if_pos hcond]
    · rw [applyEv, tick_number_counter]
  | done b v1 v2 =>
    have : applyEv s (Ev.done b v1 v2) = s := by
      simp [applyEv, he]
    rw [this]
    exact ⟨⟨he, hen, hsr, hrc⟩, rfl⟩
  | calibrate => exact ⟨⟨he, hen, hsr, hrc⟩, rfl⟩

theorem runEvs_latched (evs : List Ev) (s : Sys) (h : Latched s) :
    Latched (runEvs s evs) ∧ (runEvs s evs).number_counter = s.number_counter := by
  induction evs generalizing s with
  | nil => exact ⟨h, rfl⟩
  | cons e evs ih =>
    obtain ⟨h1, h2⟩ := applyEv_latched s e h
    obtain ⟨h3, h4⟩ := ih (applyEv s e) h1
    rw [runEvs_cons]
    exact ⟨h3, h4.trans h2⟩

/-- Every reachable state is either still sampling or fully latched. -/
theorem applyEv_sampling_or_latched (s : Sys) (e : Ev)
    (h : s.ntc_sampling_enabled = true ∨ Latched s) :
    (applyEv s e).ntc_sampling_enabled = true ∨ Latched (applyEv s e) := by
  rcases h with h | h
  · cases e with
    | tick =>
      by_cases hc : reset_max_count ≤ s.reset_counter + 1
      · right
        refine ⟨?_, ?_, ?_, ?_⟩
        · rw [applyEv, tick_enabled, if_pos hc]
        · rw [applyEv, tick_ntc_en, if_pos hc]
        · rw [applyEv, tick_sr_reset_pin, if_pos hc]
        · rw [applyEv, tick_reset_counter, if_pos hc]
      · left
        rw [applyEv, tick_enabled, if_neg hc]
        exact h
    | done b v1 v2 =>
      left
      simp [applyEv, h]
    | calibrate => exact Or.inl h
  · exact Or.inr ((applyEv_latched s e h).1)

theorem runEvs_sampling_or_latched (evs : List Ev) (s : Sys)
    (h : s.ntc_sampling_enabled = true ∨ Latched s) :
    (runEvs s evs).ntc_sampling_enabled = true ∨ Latched (runEvs s evs) := by
  induction evs generalizing s with
  | nil => exact h
  | cons e evs ih =>
    rw [runEvs_cons]
    exact ih (applyEv s e) (applyEv_sampling_or_latched s e h)

/-! ### Bridging pure tick iteration with the event model -/

theorem runEvs_replicate_tick (n : Nat) (s : Sys) :
    runEvs s (List.replicate n Ev.tick) = tick^[n] s := by
  induction n generalizing s with
  | zero => rfl
  | succ n ih =>
    rw [List.replicate_succ, runEvs_cons, ih, Function.iterate_succ_apply]
    rfl

theorem iterTick_eq_iterate (n : Nat) : iterTick n = tick^[n] init_sys := by
  induction n with
  | zero => rfl
  | succ n ih => rw [iterTick, ih, Function.iterate_succ_apply']

/-! ### Claim C2 -/

/-- Claim C2: along the main loop of the binary-notification variant, the latch
transition (`ntc_sampling_enabled` going from true to false, together with the
pin writes of main.c lines 442-444) fires exactly at tick `reset_max_count`,
the first tick at which `reset_counter` reaches the configured maximum, and at
no other tick; although each iteration increments the counter first
(line 417), the latch block reassigns it so that it stays pinned at
`reset_max_count` (the `min` closed form below) instead of being reset to zero
or wrapping. -/
theorem latch_fires_exactly_once (n : Nat) :
    (((iterTick n).ntc_sampling_enabled = true
        ∧ (iterTick (n + 1)).ntc_sampling_enabled = false)
      ↔ n + 1 = reset_max_count)
    ∧ (iterTick n).reset_counter = min n reset_max_count := by
  obtain ⟨h1, h2, -⟩ := iterTick_fields n
  obtain ⟨-, h2s, -⟩ := iterTick_fields (n + 1)
  refine ⟨?_, h1⟩
  rw [h2, h2s, decide_eq_true_eq, decide_eq_false_iff_not]
  unfold reset_max_count
  omega

/-! ### Claim C3 -/

/-- Claim C3: the latched state is terminal.  In any state reachable from the
post-init state by main-loop iterations, conversion-complete callbacks and
calibration events, once the sampling-enabled flag is false the NTC enable
output is deasserted and the reset output asserted, and they stay that way
(and the flag stays false) under every further sequence of events: the system
never returns to the sampling state. -/
theorem latched_terminal (evs evs2 : List Ev)
    (h : (runEvs init_sys evs).ntc_sampling_enabled = false) :
    (runEvs init_sys evs).ntc_en = false
    ∧ (runEvs init_sys evs).sr_reset_pin = true
    ∧ (runEvs (runEvs init_sys evs) evs2).ntc_sampling_enabled = false
    ∧ (runEvs (runEvs init_sys evs) evs2).ntc_en = false
    ∧ (runEvs (runEvs init_sys evs) evs2).sr_reset_pin = true := by
  have hreach := runEvs_sampling_or_latched evs init_sys (Or.inl rfl)
  rcases hreach with hs | hl
  · rw [h] at hs
    exact absurd hs (by simp)
  · obtain ⟨hl2, -⟩ := runEvs_latched evs2 (runEvs init_sys evs) hl
    exact ⟨hl.2.1, hl.2.2.1, hl2.1, hl2.2.1, hl2.2.2.1⟩

/-- The event list that drives the binary variant's loop to the latch point. -/
def latchEvs : List Ev := List.replicate reset_max_count Ev.tick

theorem latched_terminal_witness :
    (runEvs init_sys latchEvs).ntc_sampling_enabled = false
    ∧ ((runEvs init_sys latchEvs).ntc_en = false
       ∧ (runEvs init_sys latchEvs).sr_reset_pin = true
       ∧ (runEvs (runEvs init_sys latchEvs) [Ev.tick, Ev.done Buf.b1 0 0,
            Ev.calibrate]).ntc_sampling_enabled = false
       ∧ (runEvs (runEvs init_sys latchEvs) [Ev.tick, Ev.done Buf.b1 0 0,
            Ev.calibrate]).ntc_en = false
       ∧ (runEvs (runEvs init_sys latchEvs) [Ev.tick, Ev.done Buf.b1 0 0,
            Ev.calibrate]).sr_reset_pin = true) := by
  have h : (runEvs init_sys latchEvs).ntc_sampling_enabled = false := by
    rw [latchEvs, runEvs_replicate_tick, ← iterTick_eq_iterate,
      (iterTick_fields reset_max_count).2.1]
    decide
  exact ⟨h, latched_terminal latchEvs [Ev.tick, Ev.done Buf.b1 0 0, Ev.calibrate] h⟩

/-! ### Helper lemmas: projections of one NUS-loop iteration -/

theorem nus_tick_sample_timer (s : NusSys) :
    (nus_tick s).1.sample_timer =
      if nus_sample_divisor ≤ s.sample_timer + 1 then 0 else s.sample_timer + 1 := by
  simp only [nus_tick]

theorem nus_tick_blink_timer (s : NusSys) : (nus_tick s).1.blink_timer = 0 := by
  simp only [nus_tick]
  split_ifs <;> first | rfl | omega

theorem nus_tick_led_pin (s : NusSys) : (nus_tick s).1.led_pin = !s.led_pin := by
  simp only [nus_tick]
  split_ifs with h1 <;> first | rfl | omega

theorem nus_tick_sr_reset_pin (s : NusSys) :
    (nus_tick s).1.sr_reset_pin = s.sr_reset_pin := by
  simp only [nus_tick]

theorem nus_tick_ntc_en_pin (s : NusSys) :
    (nus_tick s).1.ntc_en_pin = s.ntc_en_pin := by
  simp only [nus_tick]

theorem nus_tick_trigger (s : NusSys) :
    (nus_tick s).2 = decide (nus_sample_divisor ≤ s.sample_timer + 1) := by
  simp only [nus_tick]

/-- Closed form for the NUS variant's main-loop trajectory. -/
theorem nusIter_fields (n : Nat) :
    (nusIter n).sample_timer = n % nus_sample_divisor
    ∧ (nusIter n).blink_timer = 0
    ∧ (nusIter n).led_pin = decide (n % 2 = 1)
    ∧ (nusIter n).sr_reset_pin = false
    ∧ (nusIter n).ntc_en_pin = true := by
  induction n with
  | zero => decide
  | succ n ih =>
    obtain ⟨h1, h2, h3, h4, h5⟩ := ih
    rw [nusIter]
    refine ⟨?_, ?_, ?_, ?_, ?_⟩
    · rw [nus_tick_sample_timer, h1]
      unfold nus_sample_divisor
      split_ifs <;> omega
    · rw [nus_tick_blink_timer]
    · rw [nus_tick_led_pin, h3, ← decide_not, decide_eq_decide]
      omega
    · rw [nus_tick_sr_reset_pin, h4]
    · rw [nus_tick_ntc_en_pin, h5]

/-! ### Claim C7 -/

/-- Claim C7: the LED output toggles exactly once per `led_interval = 2` ticks
in the binary-notification variant (first conjunct: along the trajectory, the
pin changes on tick `n + 1` exactly when `n + 1` is a multiple of the divisor)
and once per tick (divisor 1) in the NUS variant (last conjunct).  The middle
two conjuncts show that, for an arbitrary state, the LED pin and LED counter
after an iteration are a function of the LED counter and pin alone — in
particular they do not depend on `ntc_sampling_enabled` or `saadc_counter`, so
the toggle tick is independent of whether a sample trigger fires on it. -/
theorem led_heartbeat (n : Nat) (s : Sys) :
    (((iterTick (n + 1)).led_pin ≠ (iterTick n).led_pin) ↔ (n + 1) % led_interval = 0)
    ∧ (tick s).led_pin =
        (if led_interval ≤ s.led_counter + 1 then !s.led_pin else s.led_pin)
    ∧ (tick s).led_counter =
        (if led_interval ≤ s.led_counter + 1 then 0 else s.led_counter + 1)
    ∧ (nusIter (n + 1)).led_pin = !(nusIter n).led_pin := by
  obtain ⟨-, -, -, -, -, h6, -⟩ := iterTick_fields n
  obtain ⟨-, -, -, -, -, h6s, -⟩ := iterTick_fields (n + 1)
  refine ⟨?_, tick_led_pin s, tick_led_counter s, ?_⟩
  · rw [h6, h6s, Ne, decide_eq_decide]
    unfold led_interval
    omega
  · rw [(nusIter_fields n).2.2.1, (nusIter_fields (n + 1)).2.2.1,
      ← decide_not, decide_eq_decide]
    omega

/-! ### Claim C10 -/

/-- Claim C10: in the NUS text variant the main loop has no session-timeout
counter and no sampling-enabled flag to consult: along its trajectory the
reset pin stays low and the NTC enable pin stays high forever, a conversion
trigger is issued on exactly every `nus_sample_divisor = 10`-th tick,
unconditionally, and the latched terminal shape (reset asserted with enable
deasserted) is never reached. -/
theorem nus_no_latch (n : Nat) :
    (nusIter n).sr_reset_pin = false
    ∧ (nusIter n).ntc_en_pin = true
    ∧ (nusTriggersAt n = true ↔ (n + 1) % nus_sample_divisor = 0)
    ∧ ¬((nusIter n).sr_reset_pin = true ∧ (nusIter n).ntc_en_pin = false) := by
  obtain ⟨h1, -, -, h4, h5⟩ := nusIter_fields n
  refine ⟨h4, h5, ?_, ?_⟩
  · rw [nusTriggersAt, nus_tick_trigger, h1, decide_eq_true_eq]
    unfold nus_sample_divisor
    omega
  · rw [h4, h5]
    simp

/-! ### Claim C9 -/

/-- Claim C9: in the binary-notification variant, a conversion-done event that
arrives while the sampling-enabled flag is false is a complete no-op for the
handler — the globals are unchanged (`number_counter` not incremented), no
notification payload is handed to the transport, the armed-buffer queue is
untouched (the completed buffer is never re-queued) and `APP_ERROR_CHECK` is
not reached.  And since the latched state is permanent, `number_counter` stays
frozen under every further event sequence: the acquisition pipeline is starved
from that point on. -/
theorem disabled_done_frame (s : Sys) (q : List Buf) (b : Buf) (v1 v2 : Int)
    (evs : List Ev) :
    (s.ntc_sampling_enabled = false →
      saadc_event_handler s q b v1 v2 =
        { sys := s, armq := q, notif := none, halted := false })
    ∧ (Latched s → (runEvs s evs).number_counter = s.number_counter) := by
  constructor
  · intro h
    simp [saadc_event_handler, h]
  · intro h
    exact (runEvs_latched evs s h).2

/-- A concrete latched state of the binary variant, used as witness input. -/
def latchedExample : Sys :=
  { ntc_sampling_enabled := false
    number_counter := 3
    m_conn_handle_valid := true
    reset_counter := reset_max_count
    led_counter := 1
    saadc_counter := 5
    led_pin := true
    sr_reset_pin := true
    ntc_en := false }

theorem disabled_done_frame_witness :
    (latchedExample.ntc_sampling_enabled = false ∧ Latched latchedExample)
    ∧ saadc_event_handler latchedExample [Buf.b1] Buf.b2 7 (-2) =
        { sys := latchedExample, armq := [Buf.b1], notif := none, halted := false }
    ∧ (runEvs latchedExample [Ev.tick, Ev.done Buf.b1 1 2, Ev.calibrate]).number_counter
        = latchedExample.number_counter :=
  ⟨⟨rfl, rfl, rfl, rfl, rfl⟩,
    (disabled_done_frame latchedExample [Buf.b1] Buf.b2 7 (-2)
      [Ev.tick, Ev.done Buf.b1 1 2, Ev.calibrate]).1 rfl,
    (disabled_done_frame latchedExample [Buf.b1] Buf.b2 7 (-2)
      [Ev.tick, Ev.done Buf.b1 1 2, Ev.calibrate]).2 ⟨rfl, rfl, rfl, rfl⟩⟩

/-! ### Claim C4 -/

/-- Claim C4 fails on the code: from the freshly armed queue [b1, b2]
(main.c lines 161-164), the first completion hands b1 to the handler, which
arms the OPPOSITE buffer b2 (line 109) — so b2 is queued twice and the drained
b1 is NOT re-armed before the next trigger; at the second completion the
buffer handed to the callback (b2) is identical to the buffer still armed in
the driver, which the spec calls undefined (reading a buffer currently armed).
This theorem evaluates the embedded handler on that concrete trace. -/
theorem double_buffer_violation :
    done_cycle init_sys [Buf.b1, Buf.b2] 0 0 =
      some (Buf.b1, [Buf.b2],
        { sys := { init_sys with number_counter := 1 }, armq := [Buf.b2, Buf.b2],
          notif := none, halted := false })
    ∧ Buf.b1 ∉ ([Buf.b2, Buf.b2] : List Buf)
    ∧ done_cycle { init_sys with number_counter := 1 } [Buf.b2, Buf.b2] 0 0 =
      some (Buf.b2, [Buf.b2],
        { sys := { init_sys with number_counter := 2 }, armq := [Buf.b2, Buf.b1],
          notif := none, halted := false })
    ∧ Buf.b2 ∈ ([Buf.b2] : List Buf) := by
  decide

/-! ### Claim C6 -/

/-- Counterexample to claim C6 as stated: in the NUS variant's handler the
results of both `nrfx_saadc_buffer_set` calls are discarded (ble.h
lines 252-253).  With one buffer armed, the handler's second re-queue call
fails (both slots taken after the first), yet the handler does not halt:
the re-arm failure is silently ignored, not escalated. -/
theorem rearm_failure_ignored_nus :
    buffer_set [Buf.b1, Buf.b1] Buf.b2 = Except.error ()
    ∧ nus_saadc_event_handler false NRF_SUCCESS [Buf.b1] =
        { armq := [Buf.b1, Buf.b1], halted := false } := by
  decide

/-- Claim C6, amended: in the binary-notification variant a re-arm failure is
escalated as fatal — `APP_ERROR_CHECK` trips on any failing
`nrfx_saadc_buffer_set` result (main.c line 110); in the NUS text variant the
re-queue results are discarded and a re-arm failure never halts the handler
(when the send path did not already halt). -/
theorem rearm_failure_policy (s : Sys) (q : List Buf) (c : Buf) (v1 v2 : Int)
    (cv : Bool) (q2 : List Buf) :
    (s.ntc_sampling_enabled = true → buffer_set q c.other = Except.error () →
      (saadc_event_handler s q c v1 v2).halted = true)
    ∧ (nus_saadc_event_handler cv NRF_SUCCESS q2).halted = false := by
  constructor
  · intro h1 h2
    simp [saadc_event_handler, h1, h2]
  · cases cv <;> rfl

theorem rearm_failure_policy_witness :
    (init_sys.ntc_sampling_enabled = true
      ∧ buffer_set [Buf.b1, Buf.b2] Buf.b1.other = Except.error ())
    ∧ (saadc_event_handler init_sys [Buf.b1, Buf.b2] Buf.b1 0 0).halted = true
    ∧ (nus_saadc_event_handler true NRF_SUCCESS [Buf.b1]).halted = false :=
  ⟨⟨rfl, by decide⟩,
    (rearm_failure_policy init_sys [Buf.b1, Buf.b2] Buf.b1 0 0 true [Buf.b1]).1
      rfl (by decide),
    (rearm_failure_policy init_sys [Buf.b1, Buf.b2] Buf.b1 0 0 true [Buf.b1]).2⟩

/-! ### Claim C5 -/

/-- Counterexample to claim C5 as stated: in the NUS variant a send failure
that is not INVALID_STATE / RESOURCES / NOT_FOUND — here NRF_ERROR_INVALID_PARAM
(code 7) — is passed to `APP_ERROR_CHECK` and is fatal, not logged-and-continue:
the handler halts and the main loop does not keep ticking. -/
theorem transport_failure_fatal_nus :
    nus_send_outcome 7 = SendOutcome.fatal
    ∧ nus_send_outcome 7 ≠ SendOutcome.logNonFatal
    ∧ nus_send_outcome 7 ≠ SendOutcome.silentDrop
    ∧ (nus_saadc_event_handler true 7 [Buf.b1]).halted = true := by
  decide

/-- Claim C5, amended: in the binary-notification variant a Busy result is
silently dropped and every other failing result is logged but non-fatal (the
loop continues); in the NUS text variant the NotConnected (INVALID_STATE),
Busy (RESOURCES) and NOT_FOUND results are silently dropped, and every other
failing result is escalated through `APP_ERROR_CHECK`, which is fatal. -/
theorem transport_failure_policy (e : Nat) :
    hvx_outcome NRF_ERROR_BUSY = SendOutcome.silentDrop
    ∧ (e ≠ NRF_SUCCESS → e ≠ NRF_ERROR_BUSY →
        hvx_outcome e = SendOutcome.logNonFatal)
    ∧ nus_send_outcome NRF_ERROR_INVALID_STATE = SendOutcome.silentDrop
    ∧ nus_send_outcome NRF_ERROR_RESOURCES = SendOutcome.silentDrop
    ∧ nus_send_outcome NRF_ERROR_NOT_FOUND = SendOutcome.silentDrop
    ∧ (e ≠ NRF_SUCCESS → e ≠ NRF_ERROR_INVALID_STATE → e ≠ NRF_ERROR_RESOURCES →
        e ≠ NRF_ERROR_NOT_FOUND → nus_send_outcome e = SendOutcome.fatal) := by
  refine ⟨rfl, ?_, rfl, rfl, rfl, ?_⟩
  · intro h1 h2
    simp [hvx_outcome, h1, h2]
  · intro h1 h2 h3 h4
    simp [nus_send_outcome, h1, h2, h3, h4]

theorem transport_failure_policy_witness :
    ((7 : Nat) ≠ NRF_SUCCESS ∧ (7 : Nat) ≠ NRF_ERROR_BUSY
      ∧ (7 : Nat) ≠ NRF_ERROR_INVALID_STATE ∧ (7 : Nat) ≠ NRF_ERROR_RESOURCES
      ∧ (7 : Nat) ≠ NRF_ERROR_NOT_FOUND)
    ∧ hvx_outcome 7 = SendOutcome.logNonFatal
    ∧ nus_send_outcome 7 = SendOutcome.fatal :=
  ⟨by decide,
    (transport_failure_policy 7).2.1 (by decide) (by decide),
    (transport_failure_policy 7).2.2.2.2.2 (by decide) (by decide) (by decide)
      (by decide)⟩

/-! ### Claim C8 -/

theorem byte_lo_eq (v : Int) : byte_lo v = (v % 65536).toNat % 256 := by
  unfold byte_lo
  omega

theorem byte_hi_eq (v : Int) : byte_hi v = (v % 65536).toNat / 256 := by
  unfold byte_hi
  rw [Int.fdiv_eq_ediv _ (by norm_num)]
  omega

/-- Claim C8: in the binary-notification variant every payload handed to the
transport by the DONE handler is `payload4 ntc1 ntc2` (see
`saadc_event_handler`), which is exactly 4 bytes long; bytes 0-1 are the
little-endian bytes of the 16-bit two's-complement representation of the
channel-1 value and bytes 2-3 those of the channel-2 value, and for any values
in the int16_t range the little-endian signed decoding of those byte pairs
recovers the original values. -/
theorem payload_encoding (v1 v2 : Int)
    (h1 : -32768 ≤ v1) (h2 : v1 < 32768) (h3 : -32768 ≤ v2) (h4 : v2 < 32768) :
    (payload4 v1 v2).length = 4
    ∧ payload4 v1 v2 = [(v1 % 65536).toNat % 256, (v1 % 65536).toNat / 256,
        (v2 % 65536).toNat % 256, (v2 % 65536).toNat / 256]
    ∧ decode_le_s16 (byte_lo v1) (byte_hi v1) = v1
    ∧ decode_le_s16 (byte_lo v2) (byte_hi v2) = v2 := by
  have hdec : ∀ v : Int, -32768 ≤ v → v < 32768 →
      decode_le_s16 (byte_lo v) (byte_hi v) = v := by
    intro v hv1 hv2
    unfold decode_le_s16 byte_lo byte_hi
    rw [Int.fdiv_eq_ediv _ (by norm_num)]
    split_ifs <;> omega
  refine ⟨rfl, ?_, hdec v1 h1 h2, hdec v2 h3 h4⟩
  rw [payload4, byte_lo_eq, byte_hi_eq, byte_lo_eq, byte_hi_eq]

theorem payload_encoding_witness :
    (-32768 ≤ (-1 : Int) ∧ (-1 : Int) < 32768
      ∧ -32768 ≤ (300 : Int) ∧ (300 : Int) < 32768)
    ∧ ((payload4 (-1) 300).length = 4
       ∧ payload4 (-1) 300 = [((-1 : Int) % 65536).toNat % 256,
            ((-1 : Int) % 65536).toNat / 256, ((300 : Int) % 65536).toNat % 256,
            ((300 : Int) % 65536).toNat / 256]
       ∧ decode_le_s16 (byte_lo (-1)) (byte_hi (-1)) = -1
       ∧ decode_le_s16 (byte_lo 300) (byte_hi 300) = 300) :=
  ⟨by decide, payload_encoding (-1) 300 (by decide) (by decide) (by decide) (by decide)⟩

/-! ### Claim C1 -/

theorem countP_replicate_self (n : Nat) (a : Int) :
    (List.replicate n a).countP (fun x => decide (x = a)) = n := by
  induction n with
  | zero => rfl
  | succ n ih =>
    rw [List.replicate_succ, List.countP_cons, ih]
    simp

theorem match_count_replicate (a : Int) :
    match_count (List.replicate 15 a) = 15 := by
  rw [List.replicate_succ]
  simp only [match_count]
  rw [countP_replicate_self]

/-- Claim C1: for a window of 15 readings, the engine's match count (reference
plus matches among the remaining 14) equals the number of elements of the
window equal to its first element, the reference itself included; detection
holds exactly when that count is in the inclusive range [7, 8]; in particular
the all-equal window (count 15) and any all-distinct window (count 1) are not
detections. -/
theorem match_heuristic (w : List Int) (a : Int) (h : w.length = 15) :
    match_count w = w.countP (fun x => decide (x = w.headD 0))
    ∧ (detection w = true ↔ 7 ≤ match_count w ∧ match_count w ≤ 8)
    ∧ detection (List.replicate 15 a) = false
    ∧ (w.Nodup → detection w = false) := by
  match w with
  | [] => simp at h
  | r :: rest =>
    refine ⟨?_, ?_, ?_, ?_⟩
    · rw [List.headD_cons, List.countP_cons]
      simp only [match_count, decide_eq_true_eq]
      simp
      omega
    · simp [detection]
    · simp only [detection, match_count_replicate]
      decide
    · intro hnd
      have hr : r ∉ rest := (List.nodup_cons.mp hnd).1
      have hzero : rest.countP (fun x => decide (x = r)) = 0 := by
        rw [List.countP_eq_zero]
        intro x hx
        simp only [decide_eq_true_eq]
        intro hxr
        exact hr (hxr ▸ hx)
      simp only [detection, match_count, hzero]
      decide

theorem match_heuristic_witness :
    (([0, 1, 2, 3, 4, 5, 6, 7, 8, 9, 10, 11, 12, 13, 14] : List Int).length = 15
      ∧ ([0, 1, 2, 3, 4, 5, 6, 7, 8, 9, 10, 11, 12, 13, 14] : List Int).Nodup)
    ∧ (match_count [0, 1, 2, 3, 4, 5, 6, 7, 8, 9, 10, 11, 12, 13, 14] =
        ([0, 1, 2, 3, 4, 5, 6, 7, 8, 9, 10, 11, 12, 13, 14] : List Int).countP
          (fun x => decide (x = ([0, 1, 2, 3, 4, 5, 6, 7, 8, 9, 10, 11, 12,
            13, 14] : List Int).headD 0))
       ∧ (detection [0, 1, 2, 3, 4, 5, 6, 7, 8, 9, 10, 11, 12, 13, 14] = true ↔
            7 ≤ match_count [0, 1, 2, 3, 4, 5, 6, 7, 8, 9, 10, 11, 12, 13, 14]
            ∧ match_count [0, 1, 2, 3, 4, 5, 6, 7, 8, 9, 10, 11, 12, 13, 14] ≤ 8)
       ∧ detection (List.replicate 15 (5 : Int)) = false
       ∧ (([0, 1, 2, 3, 4, 5, 6, 7, 8, 9, 10, 11, 12, 13, 14] : List Int).Nodup →
            detection [0, 1, 2, 3, 4, 5, 6, 7, 8, 9, 10, 11, 12, 13, 14] = false)) :=
  ⟨by decide, match_heuristic [0, 1, 2, 3, 4, 5, 6, 7, 8, 9, 10, 11, 12, 13, 14]
    5 (by decide)⟩
